import Mathlib

/-!
Shallow embedding of the turbo-islc core (turbo_islc/ast.py and
turbo_islc/targets/rust_wasmtime/rust_wasmtime.py) together with proofs
about its typed AST model and its return-value marshaling planner.

Python dicts are modelled as ordered association lists with
insert-or-overwrite semantics (insertion order preserved, a duplicate key
keeps its first position and takes the latest value), matching CPython
dict behaviour.  Python exceptions are modelled with `Except`.
-/

namespace Tisl

/-- Ordered-dict insert: overwrite in place if the key is present, else append.
Mirrors CPython dict assignment `m[k] = v`. -/
def dictInsert {κ α : Type} [DecidableEq κ] (m : List (κ × α)) (k : κ) (v : α) :
    List (κ × α) :=
  if m.any (fun p => p.1 = k) then m.map (fun p => if p.1 = k then (k, v) else p)
  else m ++ [(k, v)]

/-- Build an ordered dict from a pair sequence, later pairs overwriting
earlier ones with the same key (Python dict comprehension semantics). -/
def dictOfPairs {κ α : Type} [DecidableEq κ] (l : List (κ × α)) : List (κ × α) :=
  l.foldl (fun m p => dictInsert m p.1 p.2) []

/-- Ordered-dict lookup, mirroring Python `m.get(k)`. -/
def dictGet? {κ α : Type} [DecidableEq κ] (m : List (κ × α)) (k : κ) : Option α :=
  (m.find? (fun p => p.1 = k)).map Prod.snd

/-- Fail-fast effectful map, mirroring Python `list(map(f, xs))` where `f`
may raise. -/
def mapE {ε α β : Type} (f : α → Except ε β) : List α → Except ε (List β)
  | [] => Except.ok []
  | a :: rest =>
    match f a with
    | Except.error e => Except.error e
    | Except.ok b =>
      match mapE f rest with
      | Except.error e => Except.error e
      | Except.ok bs => Except.ok (b :: bs)

/-- ASCII upper-casing of one character (the fragment of Python
`str.upper` exercised by the identifiers this compiler accepts). -/
def py_upper_char (c : Char) : Char :=
  if 97 ≤ c.toNat ∧ c.toNat ≤ 122 then Char.ofNat (c.toNat - 32) else c

/-- Python `str.upper` (ASCII fragment). -/
def py_upper (s : String) : String := ⟨s.data.map py_upper_char⟩

/-- Python whitespace as stripped by `str.strip`. -/
def is_py_space (c : Char) : Bool :=
  c.toNat = 32 ∨ c.toNat = 9 ∨ c.toNat = 10 ∨ c.toNat = 13 ∨
    c.toNat = 11 ∨ c.toNat = 12

/-- Python `str.strip`: drop whitespace from both ends. -/
def py_strip (s : String) : String :=
  ⟨((s.data.dropWhile is_py_space).reverse.dropWhile is_py_space).reverse⟩

/-- jinja.py `to_snakecase`: `kebab.replace("-", "_")` (the pattern is a
single character, so a character map). -/
def to_snakecase (kebab : String) : String :=
  ⟨kebab.data.map (fun ch =>
    if ch = Char.ofNat 45 then Char.ofNat 95 else ch)⟩

/-- rust_wasmtime.py `to_safe_snakecase`: prefix Rust keywords with `r#`. -/
def to_safe_snakecase (word : String) : String :=
  (if word = "type" ∨ word = "self" ∨ word = "ref" ∨ word = "return"
   then "r#" else "") ++ to_snakecase word

/-- error.py `TurboSyntaxError`: message plus source position. -/
structure TurboSyntaxError where
  message : String
  lineno : Nat
  column : Nat
deriving DecidableEq, Repr

/-- ast.py `DataType`: closed enumeration of builtin scalar types. -/
inductive DataType where
  | int
  | float
  | string
  | bool
  | bytes
deriving DecidableEq, Repr

/-- The `value` of a `DataType` member (its `__str__`). -/
def DataType.value : DataType → String
  | DataType.int => "int"
  | DataType.float => "float"
  | DataType.string => "string"
  | DataType.bool => "bool"
  | DataType.bytes => "bytes"

/-- ast.py `DataType.parse`: `DataType[expr.upper()]`, `none` models the
`KeyError`. -/
def DataType.parse (expr : String) : Option DataType :=
  match py_upper expr with
  | "INT" => some DataType.int
  | "FLOAT" => some DataType.float
  | "STRING" => some DataType.string
  | "BOOL" => some DataType.bool
  | "BYTES" => some DataType.bytes
  | _ => none

/-- ast.py `Modifier`: code-generation hints on a named type. -/
inductive Modifier where
  | list
  | ref
deriving DecidableEq, Repr

/-- ast.py `Modifier.parse`: `Modifier[expr.upper().strip()]`. -/
def Modifier.parse (expr : String) : Option Modifier :=
  match py_strip (py_upper expr) with
  | "LIST" => some Modifier.list
  | "REF" => some Modifier.ref
  | _ => none

/-- The `type` tag of a lexer data-type token: `"builtin"` or
`"record-or-enum"`. -/
inductive RawTypeKind where
  | builtin
  | recordOrEnum
deriving DecidableEq, Repr

/-- The lexer's data-type token dict: name, tag, position, and the
(possibly empty) modifier keyword list. -/
structure RawTypeSpec where
  tname : String
  kind : RawTypeKind
  line : Nat
  column : Nat
  modifiers : List String
deriving DecidableEq, Repr

/-- ast.py `NamedTypeMixin` (shared shape of `Field`, `FunctionArgument`
and `FunctionReturnValue`): name, a concrete `DataType` or a pending
symbolic name, modifiers, and declared source position. -/
structure NamedTypeMixin where
  name : String
  data_type : DataType ⊕ String
  modifiers : List Modifier
  line : Nat
  column : Nat
deriving DecidableEq, Repr

/-- `list(map(Modifier.parse, mods))`, raising `TurboSyntaxError` with the
offending (upper-cased, stripped) keyword, as `err.args[0]` carries it. -/
def parse_modifiers (line column : Nat) : List String →
    Except TurboSyntaxError (List Modifier)
  | [] => Except.ok []
  | s :: rest =>
    match Modifier.parse s with
    | none =>
      Except.error ⟨"Unexpected modifier " ++ py_strip (py_upper s), line, column⟩
    | some md =>
      match parse_modifiers line column rest with
      | Except.error e => Except.error e
      | Except.ok mds => Except.ok (md :: mds)

/-- ast.py `NamedTypeMixin.__init__`: parse the builtin type or store the
pending symbolic name, parse the modifiers, then force the `list` modifier
onto `bytes`. -/
def NamedTypeMixin.make (name : String) (spec : RawTypeSpec) :
    Except TurboSyntaxError NamedTypeMixin :=
  match
    (match spec.kind with
     | RawTypeKind.builtin =>
       match DataType.parse spec.tname with
       | some d => Except.ok (Sum.inl d)
       | none =>
         Except.error ⟨"Unexpected data type " ++ py_upper spec.tname,
           spec.line, spec.column⟩
     | RawTypeKind.recordOrEnum => Except.ok (Sum.inr spec.tname) :
       Except TurboSyntaxError (DataType ⊕ String)) with
  | Except.error e => Except.error e
  | Except.ok dt =>
    match parse_modifiers spec.line spec.column spec.modifiers with
    | Except.error e => Except.error e
    | Except.ok mods0 =>
      Except.ok ⟨name, dt,
        (if dt = Sum.inl DataType.bytes ∧ Modifier.list ∉ mods0
         then mods0 ++ [Modifier.list] else mods0),
        spec.line, spec.column⟩

/-- `NamedTypeMixin.is_reference`. -/
def NamedTypeMixin.is_reference (nt : NamedTypeMixin) : Bool :=
  decide (Modifier.ref ∈ nt.modifiers)

/-- `NamedTypeMixin.is_list`. -/
def NamedTypeMixin.is_list (nt : NamedTypeMixin) : Bool :=
  decide (Modifier.list ∈ nt.modifiers)

/-- `NamedTypeMixin.is_simple_type`. -/
def NamedTypeMixin.is_simple_type (nt : NamedTypeMixin) : Bool :=
  nt.data_type.isLeft

/-- `NamedTypeMixin.type_name`: `str(self.data_type)`. -/
def NamedTypeMixin.type_name (nt : NamedTypeMixin) : String :=
  match nt.data_type with
  | Sum.inl d => d.value
  | Sum.inr s => s

/-- `NamedTypeMixin.as_datatype`. -/
def NamedTypeMixin.as_datatype (nt : NamedTypeMixin) : Option DataType :=
  match nt.data_type with
  | Sum.inl d => some d
  | Sum.inr _ => none

/-- ast.py `Enumeration`. -/
structure Enumeration where
  name : String
  doc_string : String
  variants : List String
deriving DecidableEq, Repr

/-- ast.py `Record`: ordered name-keyed field map. -/
structure Record where
  name : String
  doc_string : String
  fields : List (String × NamedTypeMixin)
deriving DecidableEq, Repr

/-- ast.py `Function`: ordered name-keyed argument and return-value maps. -/
structure Function where
  name : String
  doc_string : String
  arguments : List (String × NamedTypeMixin)
  return_values : List (String × NamedTypeMixin)
deriving DecidableEq, Repr

/-- A module member (`Function`, `Record` or `Enumeration`); nested
modules are out of the claims' scope and omitted. -/
inductive Member where
  | function (f : Function)
  | record (r : Record)
  | enumeration (e : Enumeration)
deriving DecidableEq, Repr

/-- ast.py `Module`: ordered member list plus the three name-keyed maps
derived from it. -/
structure Module where
  name : String
  doc_string : String
  members : List Member
  functions : List (String × Function)
  records : List (String × Record)
  enums : List (String × Enumeration)
deriving DecidableEq, Repr

/-- `Record.__init__`: pair the alternating (name, type-spec) sequence,
build every `Field`, and index them by name. -/
def Record.make (name doc_string : String)
    (fields : List (String × RawTypeSpec)) : Except TurboSyntaxError Record :=
  match mapE (fun p => (NamedTypeMixin.make p.1 p.2).map (fun nt => (p.1, nt)))
      fields with
  | Except.error e => Except.error e
  | Except.ok fs => Except.ok ⟨name, doc_string, dictOfPairs fs⟩

/-- `Function.__init__`: build the argument and return-value maps. -/
def Function.make (name doc_string : String)
    (args return_values : List (String × RawTypeSpec)) :
    Except TurboSyntaxError Function :=
  match mapE (fun p => (NamedTypeMixin.make p.1 p.2).map (fun nt => (p.1, nt)))
      args with
  | Except.error e => Except.error e
  | Except.ok argPairs =>
    match mapE
        (fun p => (NamedTypeMixin.make p.1 p.2).map (fun nt => (p.1, nt)))
        return_values with
    | Except.error e => Except.error e
    | Except.ok retPairs =>
      Except.ok ⟨name, doc_string, dictOfPairs argPairs, dictOfPairs retPairs⟩

/-- `Function.is_multi_return`. -/
def Function.is_multi_return (f : Function) : Bool :=
  decide (f.return_values.length > 1)

/-- `Function.has_return_values`. -/
def Function.has_return_values (f : Function) : Bool :=
  decide (f.return_values.length > 0)

/-- `Function.num_returns`. -/
def Function.num_returns (f : Function) : Nat := f.return_values.length

/-- `Function.num_arguments`. -/
def Function.num_arguments (f : Function) : Nat := f.arguments.length

/-- `Function.get_first_return_value`. -/
def Function.get_first_return_value (f : Function) : Option NamedTypeMixin :=
  f.return_values.head?.map Prod.snd

/-- Un-built module member as the lexer hands it to the AST builder. -/
inductive RawMember where
  | mfun (name doc : String) (args rets : List (String × RawTypeSpec))
  | mrec (name doc : String) (fields : List (String × RawTypeSpec))
  | menu (name doc : String) (variants : List String)
deriving DecidableEq, Repr

/-- ast.py `parse` dispatch for one member. -/
def RawMember.build : RawMember → Except TurboSyntaxError Member
  | RawMember.mfun n d args rets => (Function.make n d args rets).map Member.function
  | RawMember.mrec n d fields => (Record.make n d fields).map Member.record
  | RawMember.menu n d vars => Except.ok (Member.enumeration ⟨n, d, vars⟩)

/-- `Module.__init__`: build every member in order, then partition the
member list into the three name-keyed maps (dict comprehensions: a later
member with a duplicate name overwrites the earlier one in the map). -/
def Module.make (name doc_string : String) (raw_members : List RawMember) :
    Except TurboSyntaxError Module :=
  match mapE RawMember.build raw_members with
  | Except.error e => Except.error e
  | Except.ok members =>
    Except.ok
      { name := name
        doc_string := doc_string
        members := members
        functions := dictOfPairs (members.filterMap (fun mem =>
          match mem with
          | Member.function f => some (f.name, f)
          | _ => none))
        records := dictOfPairs (members.filterMap (fun mem =>
          match mem with
          | Member.record r => some (r.name, r)
          | _ => none))
        enums := dictOfPairs (members.filterMap (fun mem =>
          match mem with
          | Member.enumeration e => some (e.name, e)
          | _ => none)) }

/-- `Module.record`: `self.records.get(name)`. -/
def Module.record (m : Module) (n : String) : Option Record :=
  dictGet? m.records n

/-- `Module.enum`: `self.enums.get(name)`. -/
def Module.enum (m : Module) (n : String) : Option Enumeration :=
  dictGet? m.enums n

/-- `Module.function`: `self.functions.get(name)`. -/
def Module.function (m : Module) (n : String) : Option Function :=
  dictGet? m.functions n

/-- `NamedTypeMixin.is_record`: a pending symbolic name that resolves in
the owning module's record map.  The owning module is passed explicitly
(Python keeps a `parent_module` back-pointer). -/
def NamedTypeMixin.is_record (nt : NamedTypeMixin) (m : Module) : Bool :=
  match nt.data_type with
  | Sum.inr s => (m.record s).isSome
  | Sum.inl _ => false

/-- `NamedTypeMixin.is_enum`: likewise against the enum map. -/
def NamedTypeMixin.is_enum (nt : NamedTypeMixin) (m : Module) : Bool :=
  match nt.data_type with
  | Sum.inr s => (m.enum s).isSome
  | Sum.inl _ => false

/-- A single-quote character, to reproduce the undefined-type message. -/
def squote : String := String.singleton (Char.ofNat 39)

/-- The `as_record` / `as_enum` error message
`Undefined data type '<name>'`. -/
def undefined_type_msg (s : String) : String :=
  "Undefined data type " ++ squote ++ s ++ squote

/-- `NamedTypeMixin.as_record`: lazy lookup at use site; raises
`TurboSyntaxError` at the ORIGINAL declared position if the record map has
no such name. -/
def NamedTypeMixin.as_record (nt : NamedTypeMixin) (m : Module) :
    Except TurboSyntaxError (Option Record) :=
  match nt.data_type with
  | Sum.inr s =>
    match m.record s with
    | some r => Except.ok (some r)
    | none => Except.error ⟨undefined_type_msg s, nt.line, nt.column⟩
  | Sum.inl _ => Except.ok none

/-- `NamedTypeMixin.as_enum`: likewise against the enum map. -/
def NamedTypeMixin.as_enum (nt : NamedTypeMixin) (m : Module) :
    Except TurboSyntaxError (Option Enumeration) :=
  match nt.data_type with
  | Sum.inr s =>
    match m.enum s with
    | some e => Except.ok (some e)
    | none => Except.error ⟨undefined_type_msg s, nt.line, nt.column⟩
  | Sum.inl _ => Except.ok none

/-! rust_wasmtime.py: the ABI type tables and the return-value marshaling
planner (`Types`, `WriteOp`, `AllocOp`, `ReturnValueWriter`). -/

/-- `Types.abi_size_type` class attribute (the planner's static methods
always read the class attribute, so the `i64` default). -/
def abi_size_type : String := "i64"

/-- Key of a Python dict that mixes `str` keys with `DataType` enum-object
keys: `Types.abi_types` after `list_types[ast.DataType.STRING] = "u8"`. -/
inductive AbiKey where
  | strKey (s : String)
  | dtKey (d : DataType)
deriving DecidableEq, Repr

/-- `Types.rust_types`. -/
def rust_types : List (String × String) :=
  [("int", "i64"), ("float", "f64"), ("bool", "bool"), ("string", "String"),
   ("bytes", "u8")]

/-- `Types.rust_ref_types`. -/
def rust_ref_types : List (String × String) :=
  [("int", "i64"), ("float", "f64"), ("bool", "bool"), ("string", "str"),
   ("bytes", "u8")]

/-- `Types.abi_types_in`: argument-position wire types (no `bytes` entry). -/
def abi_types_in : List (String × String) :=
  [("int", "i64"), ("float", "f64"), ("bool", "i32"),
   ("string", abi_size_type)]

/-- `Types.abi_types`: struct/array marshaling wire types, keyed by the
TISL type-name strings. -/
def abi_types : List (AbiKey × String) :=
  [(AbiKey.strKey "int", "i64"), (AbiKey.strKey "float", "f64"),
   (AbiKey.strKey "bool", "u8"), (AbiKey.strKey "string", abi_size_type),
   (AbiKey.strKey "bytes", "u8")]

/-- `_create_ops` aliases `Types.abi_types` as `list_types` and assigns
`list_types[ast.DataType.STRING] = "u8"`: the new entry is keyed by the
`DataType.STRING` enum object, not by the string `"string"`. -/
def list_types : List (AbiKey × String) :=
  dictInsert abi_types (AbiKey.dtKey DataType.string) "u8"

/-- rust_wasmtime.py `WriteOp` dataclass. -/
structure WriteOp where
  target : String
  source : String
  rust_type : String
deriving DecidableEq, Repr

/-- The `item_type` of an `AllocOp`: `Union[str, Record, Enumeration]`. -/
inductive ItemType where
  | str (s : String)
  | record (r : Record)
  | enumeration (e : Enumeration)
deriving DecidableEq, Repr

/-- rust_wasmtime.py `AllocOp` dataclass. -/
structure AllocOp where
  write_op : WriteOp
  item_type : ItemType
deriving DecidableEq, Repr

/-- Failure modes while planning: a Python `KeyError` on a type table, a
`TurboSyntaxError` escaping `as_record`/`as_enum`, an access on `None`
(`AttributeError`, unreachable on the guarded paths), or the embedding's
recursion fuel running out (a cyclic record, on which the Python code
would not terminate). -/
inductive PlanError where
  | keyError (k : String)
  | turboError (e : TurboSyntaxError)
  | attributeError
  | fuel
deriving DecidableEq, Repr

/-- The four callbacks `_create_ops` receives: source / source-length /
target / target-length expression builders. -/
structure OpCallbacks where
  source_fn : NamedTypeMixin → String
  source_len_fn : NamedTypeMixin → String
  target_fn : NamedTypeMixin → Except PlanError String
  target_len_fn : NamedTypeMixin → Except PlanError String

/-- `Types.wrapper_in`: the wire declaration of one function argument —
lists and records pass an `abi_size_type` handle (lists add a `_len`
parameter), enums pass `i32`, other scalars use `abi_types_in`. -/
def wrapper_in (m : Module) (arg : NamedTypeMixin) : Except PlanError String :=
  match
    (if arg.is_list then Except.ok abi_size_type
     else if arg.is_record m then Except.ok abi_size_type
     else if arg.is_enum m then Except.ok "i32"
     else
       match dictGet? abi_types_in arg.type_name with
       | some t => Except.ok t
       | none => Except.error (PlanError.keyError arg.type_name) :
         Except PlanError String) with
  | Except.error e => Except.error e
  | Except.ok type_name =>
    let decl := to_safe_snakecase arg.name ++ ": " ++ type_name ++ ","
    Except.ok
      (if arg.is_list then
        decl ++ "\n" ++ to_safe_snakecase arg.name ++ "_len:" ++ " " ++
          abi_size_type
       else decl)

/-- The one summand `_field_target` accumulates for a sibling field
declared before the field whose offset is being computed. -/
def size_term (m : Module) (rec_field : NamedTypeMixin) :
    Except PlanError String :=
  if rec_field.is_list = true ∨ rec_field.as_datatype = some DataType.string
  then Except.ok ("2 * std::mem::size_of::<" ++ abi_size_type ++ ">()")
  else if rec_field.is_record m = true then
    Except.ok (py_upper (to_safe_snakecase rec_field.type_name))
  else
    match dictGet? abi_types (AbiKey.strKey rec_field.type_name) with
    | some t => Except.ok ("std::mem::size_of::<" ++ t ++ ">()")
    | none => Except.error (PlanError.keyError rec_field.type_name)

/-- `ReturnValueWriter._field_target`: the byte-offset expression of a
flattened field: the enclosing value's `_out` base plus one size term per
preceding sibling, joined with `+`. -/
def field_target (m : Module) (argument_name : String)
    (fields : List (String × NamedTypeMixin)) (field : NamedTypeMixin) :
    Except PlanError String :=
  match mapE (fun p => size_term m p.2)
      (fields.takeWhile (fun p => p.1 ≠ field.name)) with
  | Except.error e => Except.error e
  | Except.ok terms =>
    Except.ok (String.intercalate " + "
      ((to_safe_snakecase argument_name ++ "_out") :: terms))

/-- `ReturnValueWriter._field_target_len`: the paired length slot sits one
`abi_size_type` further. -/
def field_target_len (m : Module) (argument_name : String)
    (fields : List (String × NamedTypeMixin)) (field : NamedTypeMixin) :
    Except PlanError String :=
  match field_target m argument_name fields field with
  | Except.error e => Except.error e
  | Except.ok t =>
    Except.ok (t ++ " + std::mem::size_of::<" ++ abi_size_type ++ ">()")

/-- The callbacks `ReturnValueWriter.__init__` builds when the planned
value is a record being flattened (the `(argument_name, record)` target). -/
def field_callbacks (m : Module) (argument_name : String)
    (fields : List (String × NamedTypeMixin)) : OpCallbacks :=
  { source_fn := fun f => to_safe_snakecase f.name
    source_len_fn := fun f => to_safe_snakecase f.name ++ ".len()"
    target_fn := field_target m argument_name fields
    target_len_fn := field_target_len m argument_name fields }

/-- The element type stored in an `AllocOp`: resolved record, resolved
enum, or the `list_types` entry for the value's type-name string.  The
`attributeError` arms are unreachable: each is guarded by the classifier
that performs the same module lookup. -/
def item_type_of (m : Module) (rv : NamedTypeMixin) : Except PlanError ItemType :=
  if rv.is_record m = true then
    match rv.as_record m with
    | Except.ok (some r) => Except.ok (ItemType.record r)
    | Except.ok none => Except.error PlanError.attributeError
    | Except.error e => Except.error (PlanError.turboError e)
  else if rv.is_enum m = true then
    match rv.as_enum m with
    | Except.ok (some e) => Except.ok (ItemType.enumeration e)
    | Except.ok none => Except.error PlanError.attributeError
    | Except.error e => Except.error (PlanError.turboError e)
  else
    match dictGet? list_types (AbiKey.strKey rv.type_name) with
    | some t => Except.ok (ItemType.str t)
    | none => Except.error (PlanError.keyError rv.type_name)

/-- One iteration of the `_create_ops` loop: the write/alloc operations a
single return-like value contributes.  `recurse` is the planner re-entered
on a nested record's own fields (`ReturnValueWriter` recursion). -/
def value_ops
    (recurse : List (String × NamedTypeMixin) → OpCallbacks →
      Except PlanError (List WriteOp × List AllocOp))
    (m : Module) (cb : OpCallbacks) (rv : NamedTypeMixin) :
    Except PlanError (List WriteOp × List AllocOp) :=
  if rv.is_list = true ∨ rv.as_datatype = some DataType.string then
    match item_type_of m rv with
    | Except.error e => Except.error e
    | Except.ok item_type =>
      match cb.target_fn rv with
      | Except.error e => Except.error e
      | Except.ok tgt =>
        match cb.target_len_fn rv with
        | Except.error e => Except.error e
        | Except.ok tlen =>
          Except.ok ([⟨tlen, cb.source_len_fn rv, abi_size_type⟩],
            [⟨⟨tgt, cb.source_fn rv, abi_size_type⟩, item_type⟩])
  else if rv.is_record m = true then
    match rv.as_record m with
    | Except.error e => Except.error (PlanError.turboError e)
    | Except.ok (some r) => recurse r.fields (field_callbacks m rv.name r.fields)
    | Except.ok none => Except.error PlanError.attributeError
  else if rv.is_enum m = true ∨ rv.as_datatype = some DataType.bool then
    match cb.target_fn rv with
    | Except.error e => Except.error e
    | Except.ok tgt => Except.ok ([⟨tgt, cb.source_fn rv, "u8"⟩], [])
  else
    match cb.target_fn rv with
    | Except.error e => Except.error e
    | Except.ok tgt =>
      match dictGet? abi_types (AbiKey.strKey rv.type_name) with
      | some t => Except.ok ([⟨tgt, cb.source_fn rv, t⟩], [])
      | none => Except.error (PlanError.keyError rv.type_name)

/-- The `_create_ops` loop over the ordered value map: each value's
operations are appended (spliced) in declaration order. -/
def plan_values
    (recurse : List (String × NamedTypeMixin) → OpCallbacks →
      Except PlanError (List WriteOp × List AllocOp))
    (m : Module) (cb : OpCallbacks) :
    List (String × NamedTypeMixin) →
      Except PlanError (List WriteOp × List AllocOp)
  | [] => Except.ok ([], [])
  | (_, rv) :: rest =>
    match value_ops recurse m cb rv with
    | Except.error e => Except.error e
    | Except.ok (ws, als) =>
      match plan_values recurse m cb rest with
      | Except.error e => Except.error e
      | Except.ok (ws2, als2) => Except.ok (ws ++ ws2, als ++ als2)

/-- `ReturnValueWriter._create_ops`, with recursion fuel bounding the
record-nesting depth (the Python code recurses unboundedly on cyclic
records). -/
def create_ops (m : Module) :
    Nat → List (String × NamedTypeMixin) → OpCallbacks →
      Except PlanError (List WriteOp × List AllocOp)
  | 0, _, _ => Except.error PlanError.fuel
  | fuel + 1, args, cb => plan_values (create_ops m fuel) m cb args

/-- `ReturnValueWriter.__init__` on a `Function`: plan its return values
with the wrapper-parameter (`_out` / `_out_len`) target expressions. -/
def function_writer (m : Module) (fuel : Nat) (f : Function) :
    Except PlanError (List WriteOp × List AllocOp) :=
  create_ops m fuel f.return_values
    { source_fn := fun rv =>
        if f.is_multi_return then to_safe_snakecase rv.name else ""
      source_len_fn := fun rv =>
        (if f.is_multi_return then to_safe_snakecase rv.name else "") ++
          ".len()"
      target_fn := fun rv => Except.ok (to_safe_snakecase rv.name ++ "_out")
      target_len_fn := fun rv =>
        Except.ok (to_safe_snakecase rv.name ++ "_out_len") }

/-- `ReturnValueWriter.__init__` on an `(argument_name, record)` pair:
plan the record's own fields with the flattened-offset targets. -/
def record_writer (m : Module) (fuel : Nat) (argument_name : String)
    (target_ : Record) : Except PlanError (List WriteOp × List AllocOp) :=
  create_ops m fuel target_.fields (field_callbacks m argument_name target_.fields)

/-! Spec-side offset formula, for comparison with `field_target`. -/

/-- Modelled from the spec wording (target-offset computation, §4.5): the
size contribution of one preceding sibling — two ABI-size-type widths for
a list or a string, the upper-cased snake-case size constant of its record
type for a record, and the fixed wire width of its scalar (the
`abi_types` entry) or enum (one byte, `u8`) type otherwise. -/
def spec_size_term (m : Module) (sib : NamedTypeMixin) : String :=
  if sib.is_list = true ∨ sib.as_datatype = some DataType.string then
    "2 * std::mem::size_of::<" ++ abi_size_type ++ ">()"
  else if sib.is_record m = true then
    py_upper (to_safe_snakecase sib.type_name)
  else if sib.is_enum m = true then
    "std::mem::size_of::<u8>()"
  else
    "std::mem::size_of::<" ++
      ((dictGet? abi_types (AbiKey.strKey sib.type_name)).getD "") ++ ">()"

/-- Modelled from the spec wording: the base `_out` offset of the
enclosing value plus the sum of `spec_size_term` over all fields declared
before the given field. -/
def spec_field_offset (m : Module) (argument_name : String)
    (fields : List (String × NamedTypeMixin)) (field : NamedTypeMixin) :
    String :=
  String.intercalate " + "
    ((to_safe_snakecase argument_name ++ "_out") ::
      (fields.takeWhile (fun p => p.1 ≠ field.name)).map
        (fun p => spec_size_term m p.2))

/-! Concrete fixtures: small schemas used to settle the claims'
testable-property instances. -/

/-- A builtin-type lexer token. -/
def raw_builtin (n : String) (l c : Nat) (mods : List String := []) :
    RawTypeSpec :=
  ⟨n, RawTypeKind.builtin, l, c, mods⟩

/-- A record-or-enum lexer token. -/
def raw_named (n : String) (l c : Nat) (mods : List String := []) :
    RawTypeSpec :=
  ⟨n, RawTypeKind.recordOrEnum, l, c, mods⟩

/-- Unwrap an expected-successful module build. -/
def moduleOr (e : Except TurboSyntaxError Module) : Module :=
  match e with
  | Except.ok m => m
  | Except.error _ => ⟨"", "", [], [], [], []⟩

/-- Unwrap an expected-successful named-type build. -/
def ntOr (e : Except TurboSyntaxError NamedTypeMixin) : NamedTypeMixin :=
  match e with
  | Except.ok nt => nt
  | Except.error _ => ⟨"", Sum.inr "", [], 0, 0⟩

/-- Unwrap an expected-successful function build. -/
def fnOr (e : Except TurboSyntaxError Function) : Function :=
  match e with
  | Except.ok f => f
  | Except.error _ => ⟨"", "", [], []⟩

/-- Arbitrary callbacks, for exercising per-value lemmas. -/
def anyCb : OpCallbacks :=
  { source_fn := fun _ => ""
    source_len_fn := fun _ => ""
    target_fn := fun _ => Except.ok ""
    target_len_fn := fun _ => Except.ok "" }

/-- `(mod m2 (rec R (:n int :s string)) (fun g () (:r R)))`. -/
def c2m : Module :=
  moduleOr (Module.make "m2" ""
    [RawMember.mrec "R" "" [("n", raw_builtin "int" 1 1),
      ("s", raw_builtin "string" 1 2)],
     RawMember.mfun "g" "" [] [("r", raw_named "R" 1 3)]])

/-- The function `g` of `c2m`. -/
def c2g : Function := (c2m.function "g").getD ⟨"", "", [], []⟩

/-- The record `R` of `c2m`. -/
def c2R : Record := (c2m.record "R").getD ⟨"", "", []⟩

/-- The fields of record `R` of `c2m`. -/
def c2Rfields : List (String × NamedTypeMixin) := c2R.fields

/-- The field `s` of record `R` of `c2m`. -/
def c2s : NamedTypeMixin :=
  (dictGet? c2Rfields "s").getD ⟨"", Sum.inr "", [], 0, 0⟩

/-- The return value `r` of function `g` of `c2m`. -/
def c2rv : NamedTypeMixin :=
  (dictGet? c2g.return_values "r").getD ⟨"", Sum.inr "", [], 0, 0⟩

/-- `(mod m3 (fun h () (:xs (list int))))`. -/
def c3m : Module :=
  moduleOr (Module.make "m3" ""
    [RawMember.mfun "h" "" [] [("xs", raw_builtin "int" 1 1 ["list"])]])

/-- The function `h` of `c3m`. -/
def c3h : Function := (c3m.function "h").getD ⟨"", "", [], []⟩

/-- The return value `xs` of function `h` of `c3m`. -/
def c3xs : NamedTypeMixin :=
  (dictGet? c3h.return_values "xs").getD ⟨"", Sum.inr "", [], 0, 0⟩

/-- `(mod m4 (enu e (:a :b)))`. -/
def c4m : Module :=
  moduleOr (Module.make "m4" "" [RawMember.menu "e" "" ["a", "b"]])

/-- A named type declared at line 2, column 3, whose symbolic name `e`
resolves to an enum (and to no record) in `c4m`. -/
def c4nt : NamedTypeMixin := ntOr (NamedTypeMixin.make "x" (raw_named "e" 2 3))

/-- `(mod m (rec a (:x b)) (rec b (:y int)))`: `b` is declared after `a`. -/
def c5m : Module :=
  moduleOr (Module.make "m" ""
    [RawMember.mrec "a" "" [("x", raw_named "b" 1 10)],
     RawMember.mrec "b" "" [("y", raw_builtin "int" 1 30)]])

/-- `(fun f (:a int) (:b string))`: one argument list `(:a int)` and one
return-value list `(:b string)`. -/
def c8f : Function :=
  fnOr (Function.make "f" "" [("a", raw_builtin "int" 1 8)]
    [("b", raw_builtin "string" 1 17)])

/-- The raw members of a module with two records both named `r`. -/
def c9raws : List RawMember :=
  [RawMember.mrec "r" "" [("p", raw_builtin "int" 1 1)],
   RawMember.mrec "r" "" [("q", raw_builtin "int" 2 1)]]

/-- `(mod m9 (rec r (:p int)) (rec r (:q int)))`. -/
def c9m : Module := moduleOr (Module.make "m9" "" c9raws)

/-- `(mod m9f (fun f () ()) (fun f (:a int) ()))`: two functions both
named `f`. -/
def c9fm : Module :=
  moduleOr (Module.make "m9f" ""
    [RawMember.mfun "f" "" [] [],
     RawMember.mfun "f" "" [("a", raw_builtin "int" 1 1)] []])

/-- `(mod m9e (enu e (:a)) (enu e (:b)))`: two enums both named `e`. -/
def c9em : Module :=
  moduleOr (Module.make "m9e" ""
    [RawMember.menu "e" "" ["a"], RawMember.menu "e" "" ["b"]])

/-- `(mod m10 (fun sfun () (:t string)))`: a bare string return value. -/
def c10m : Module :=
  moduleOr (Module.make "m10" ""
    [RawMember.mfun "sfun" "" [] [("t", raw_builtin "string" 1 1)]])

/-- The function `sfun` of `c10m`. -/
def c10f : Function := (c10m.function "sfun").getD ⟨"", "", [], []⟩

/-- A `(ref list bytes)` named type. -/
def c6nt : NamedTypeMixin :=
  ntOr (NamedTypeMixin.make "bb" (raw_builtin "bytes" 1 1 ["ref", "list"]))

/-- A bare `bool` function argument. -/
def c7bool : NamedTypeMixin := ⟨"flag", Sum.inl DataType.bool, [], 1, 1⟩

/-! Helper lemmas about the ordered-dict model and the named-type
builder. -/

theorem dictInsert_of_not_mem {κ α : Type} [DecidableEq κ]
    (m : List (κ × α)) (k : κ) (v : α) (h : k ∉ m.map Prod.fst) :
    dictInsert m k v = m ++ [(k, v)] := by
  have hne : ¬ (m.any (fun p => p.1 = k) = true) := by
    rw [List.any_eq_true]
    rintro ⟨p, hp, he⟩
    exact h (List.mem_map.mpr ⟨p, hp, of_decide_eq_true he⟩)
  unfold dictInsert
  rw [if_neg hne]

theorem foldl_dictInsert_of_nodup {κ α : Type} [DecidableEq κ] :
    ∀ (l acc : List (κ × α)), (l.map Prod.fst).Nodup →
      (∀ k, k ∈ l.map Prod.fst → k ∉ acc.map Prod.fst) →
      l.foldl (fun m p => dictInsert m p.1 p.2) acc = acc ++ l
  | [], acc, _, _ => by simp
  | (k, v) :: rest, acc, hnd, hdisj => by
    have hk : k ∉ acc.map Prod.fst := hdisj k (by simp)
    have hhead : k ∉ rest.map Prod.fst :=
      (List.nodup_cons.mp (by simpa using hnd)).1
    have hnd' : (rest.map Prod.fst).Nodup :=
      (List.nodup_cons.mp (by simpa using hnd)).2
    have hdisj' : ∀ k2, k2 ∈ rest.map Prod.fst →
        k2 ∉ (acc ++ [(k, v)]).map Prod.fst := by
      intro k2 hk2
      simp only [List.map_append, List.mem_append]
      rintro (hc | hc)
      · exact hdisj k2 (by simp [hk2]) hc
      · simp only [List.map_cons, List.map_nil, List.mem_singleton] at hc
        subst hc
        exact hhead hk2
    rw [List.foldl_cons, dictInsert_of_not_mem acc k v hk,
      foldl_dictInsert_of_nodup rest (acc ++ [(k, v)]) hnd' hdisj']
    simp

theorem dictOfPairs_of_nodup {κ α : Type} [DecidableEq κ]
    (l : List (κ × α)) (h : (l.map Prod.fst).Nodup) : dictOfPairs l = l := by
  unfold dictOfPairs
  rw [foldl_dictInsert_of_nodup l [] h (by simp)]
  simp

theorem make_bytes_is_list (name : String) (spec : RawTypeSpec)
    (nt : NamedTypeMixin) (h : NamedTypeMixin.make name spec = Except.ok nt)
    (hb : nt.data_type = Sum.inl DataType.bytes) : nt.is_list = true := by
  unfold NamedTypeMixin.make at h
  split at h
  · exact absurd h (by simp)
  · split at h
    · exact absurd h (by simp)
    · rw [Except.ok.injEq] at h
      subst h
      simp only [NamedTypeMixin.data_type] at hb
      subst hb
      simp only [NamedTypeMixin.is_list, NamedTypeMixin.modifiers]
      split_ifs with hif
      · simp
      · simp only [true_and, not_not] at hif
        simpa using hif

theorem as_record_inv (m : Module) (rv : NamedTypeMixin) (r : Record)
    (h : rv.as_record m = Except.ok (some r)) :
    ∃ s, rv.data_type = Sum.inr s ∧ m.record s = some r ∧
      rv.is_record m = true := by
  cases hd : rv.data_type with
  | inl d =>
    exfalso
    unfold NamedTypeMixin.as_record at h
    rw [hd] at h
    simp at h
  | inr s =>
    have key : rv.as_record m =
        (match m.record s with
         | some r0 => Except.ok (some r0)
         | none =>
           Except.error ⟨undefined_type_msg s, rv.line, rv.column⟩) := by
      unfold NamedTypeMixin.as_record
      rw [hd]
    rw [key] at h
    cases hm : m.record s <;> rw [hm] at h <;> simp at h
    subst h
    refine ⟨s, rfl, hm, ?_⟩
    unfold NamedTypeMixin.is_record
    rw [hd]
    show (m.record s).isSome = true
    rw [hm]
    rfl

theorem as_enum_inv (m : Module) (rv : NamedTypeMixin) (e : Enumeration)
    (h : rv.as_enum m = Except.ok (some e)) :
    ∃ s, rv.data_type = Sum.inr s ∧ m.enum s = some e ∧
      rv.is_enum m = true := by
  cases hd : rv.data_type with
  | inl d =>
    exfalso
    unfold NamedTypeMixin.as_enum at h
    rw [hd] at h
    simp at h
  | inr s =>
    have key : rv.as_enum m =
        (match m.enum s with
         | some e0 => Except.ok (some e0)
         | none =>
           Except.error ⟨undefined_type_msg s, rv.line, rv.column⟩) := by
      unfold NamedTypeMixin.as_enum
      rw [hd]
    rw [key] at h
    cases hm : m.enum s <;> rw [hm] at h <;> simp at h
    subst h
    refine ⟨s, rfl, hm, ?_⟩
    unfold NamedTypeMixin.is_enum
    rw [hd]
    show (m.enum s).isSome = true
    rw [hm]
    rfl

/-! Claim theorems. -/

/-- C6: a named type whose data type is `bytes` satisfies
`is_list() == true` even with no explicit `list` modifier (construction
forces the modifier), and `(ref list bytes)` yields both
`is_list() == true` and `is_reference() == true`.  The Lean values are
immutable, so the invariant cannot change after construction. -/
theorem claim6_bytes_implies_list :
    (∀ (name : String) (spec : RawTypeSpec) (nt : NamedTypeMixin),
      NamedTypeMixin.make name spec = Except.ok nt →
      nt.data_type = Sum.inl DataType.bytes → nt.is_list = true) ∧
    (∀ (name : String) (l c : Nat) (nt : NamedTypeMixin),
      NamedTypeMixin.make name
          ⟨"bytes", RawTypeKind.builtin, l, c, ["ref", "list"]⟩ =
        Except.ok nt →
      nt.is_list = true ∧ nt.is_reference = true) := by
  constructor
  · exact fun name spec nt h hb => make_bytes_is_list name spec nt h hb
  · intro name l c nt h
    have hred : NamedTypeMixin.make name
        ⟨"bytes", RawTypeKind.builtin, l, c, ["ref", "list"]⟩ =
        Except.ok ⟨name, Sum.inl DataType.bytes,
          [Modifier.ref, Modifier.list], l, c⟩ := rfl
    rw [hred, Except.ok.injEq] at h
    subst h
    exact ⟨rfl, rfl⟩

/-- C6 witness: the `(ref list bytes)` conjunct applied to the `c6nt`
fixture. -/
theorem claim6_witness : c6nt.is_list = true ∧ c6nt.is_reference = true :=
  claim6_bytes_implies_list.2 "bb" 1 1 c6nt rfl

/-- C7: a scalar `bool` argument's wire declaration uses the 4-byte `i32`
(`abi_types_in`), while the planner writes a `bool` or enum return value
with 1-byte width `u8`; `abi_types_in` has no `bytes` entry and every
constructed `bytes` argument takes the list path (handle plus `_len`
parameter), so the argument-position table is never consulted for
`bytes`. -/
theorem claim7_wire_types :
    (∀ (m : Module) (nt : NamedTypeMixin),
      nt.data_type = Sum.inl DataType.bool → nt.is_list = false →
      wrapper_in m nt = Except.ok (to_safe_snakecase nt.name ++ ": " ++ "i32" ++ ",")) ∧
    (∀ (recurse : List (String × NamedTypeMixin) → OpCallbacks →
        Except PlanError (List WriteOp × List AllocOp))
      (m : Module) (cb : OpCallbacks) (rv : NamedTypeMixin) (tgt : String),
      (rv.is_enum m = true ∨ rv.as_datatype = some DataType.bool) →
      rv.is_list = false → rv.as_datatype ≠ some DataType.string →
      rv.is_record m = false →
      cb.target_fn rv = Except.ok tgt →
      value_ops recurse m cb rv =
        Except.ok ([⟨tgt, cb.source_fn rv, "u8"⟩], [])) ∧
    dictGet? abi_types_in "bytes" = none ∧
    (∀ (m : Module) (name : String) (spec : RawTypeSpec)
      (nt : NamedTypeMixin),
      NamedTypeMixin.make name spec = Except.ok nt →
      nt.data_type = Sum.inl DataType.bytes →
      wrapper_in m nt = Except.ok (to_safe_snakecase nt.name ++ ": " ++
        abi_size_type ++ "," ++ "\n" ++ to_safe_snakecase nt.name ++
        "_len:" ++ " " ++ abi_size_type)) := by
  refine ⟨?_, ?_, rfl, ?_⟩
  · intro m nt hb hl
    have hrec : nt.is_record m = false := by
      unfold NamedTypeMixin.is_record
      rw [hb]
    have henu : nt.is_enum m = false := by
      unfold NamedTypeMixin.is_enum
      rw [hb]
    have htn : nt.type_name = "bool" := by
      unfold NamedTypeMixin.type_name
      rw [hb]
      rfl
    unfold wrapper_in
    rw [hl, hrec, henu, htn]
    rfl
  · intro recurse m cb rv tgt hen hl hns hrec htgt
    unfold value_ops
    rw [if_neg (by simp [hl, hns]), if_neg (by simp [hrec]),
      if_pos hen, htgt]
  · intro m name spec nt h hb
    have hl : nt.is_list = true := make_bytes_is_list name spec nt h hb
    unfold wrapper_in
    rw [hl]
    rfl

/-- C7 witness: the bool-argument conjunct applied to the `c7bool`
fixture. -/
theorem claim7_witness :
    wrapper_in c2m c7bool =
      Except.ok (to_safe_snakecase c7bool.name ++ ": " ++ "i32" ++ ",") :=
  claim7_wire_types.1 c2m c7bool rfl rfl

/-- C4 counterexample: in `(mod m4 (enu e (:a :b)))` the named type `x`
with symbolic name `e` resolves to an enum, yet `as_record` raises — so
"raises if and only if the name resolves to neither a record nor an enum"
fails for `as_record` on an enum-only name. -/
theorem claim4_counterexample :
    (∃ e, c4nt.as_record c4m = Except.error e) ∧
      c4m.enum "e" = some ⟨"e", "", ["a", "b"]⟩ :=
  ⟨⟨⟨undefined_type_msg "e", 2, 3⟩, rfl⟩, rfl⟩

/-- C4 (amended): for a named type whose type is a symbolic name,
`as_record` raises if and only if the name resolves to no RECORD, and
`as_enum` raises if and only if the name resolves to no ENUM (hence if the
name resolves to neither, both raise); the raised error names the
undefined type and carries the named type's original declared line and
column. -/
theorem claim4_resolution_errors (m : Module) (nt : NamedTypeMixin)
    (s : String) (hs : nt.data_type = Sum.inr s) :
    ((∃ e, nt.as_record m = Except.error e) ↔ m.record s = none) ∧
    (∀ e, nt.as_record m = Except.error e →
      e = ⟨undefined_type_msg s, nt.line, nt.column⟩) ∧
    ((∃ e, nt.as_enum m = Except.error e) ↔ m.enum s = none) ∧
    (∀ e, nt.as_enum m = Except.error e →
      e = ⟨undefined_type_msg s, nt.line, nt.column⟩) := by
  have keyr : nt.as_record m =
      (match m.record s with
       | some r => Except.ok (some r)
       | none =>
         Except.error ⟨undefined_type_msg s, nt.line, nt.column⟩) := by
    unfold NamedTypeMixin.as_record
    rw [hs]
  have keye : nt.as_enum m =
      (match m.enum s with
       | some e => Except.ok (some e)
       | none =>
         Except.error ⟨undefined_type_msg s, nt.line, nt.column⟩) := by
    unfold NamedTypeMixin.as_enum
    rw [hs]
  refine ⟨?_, ?_, ?_, ?_⟩
  · cases hr : m.record s <;> rw [keyr, hr] <;> simp
  · intro e he
    rw [keyr] at he
    cases hr : m.record s <;> rw [hr] at he <;> simp at he
    exact he.symm
  · cases hr : m.enum s <;> rw [keye, hr] <;> simp
  · intro e he
    rw [keye] at he
    cases hr : m.enum s <;> rw [hr] at he <;> simp at he
    exact he.symm

/-- C4 witness: the amended theorem applied to the `c4m` fixture. -/
theorem claim4_witness : ∃ e, c4nt.as_record c4m = Except.error e :=
  (claim4_resolution_errors c4m c4nt "e" rfl).1.mpr rfl

/-- C5: in `(mod m (rec a (:x b)) (rec b (:y int)))`, `as_record` on field
`x` of record `a` resolves to record `b` even though `b` is declared after
`a` (lookup happens at first use against the fully built module maps); the
second conjunct exhibits the declaration order. -/
theorem claim5_forward_reference :
    ((c5m.record "a").bind (fun a => dictGet? a.fields "x")).map
        (fun x => x.as_record c5m) =
      some (Except.ok (some
        ⟨"b", "", [("y", ⟨"y", Sum.inl DataType.int, [], 1, 30⟩)]⟩)) ∧
    c5m.members =
      [Member.record ⟨"a", "", [("x", ⟨"x", Sum.inr "b", [], 1, 10⟩)]⟩,
       Member.record
         ⟨"b", "", [("y", ⟨"y", Sum.inl DataType.int, [], 1, 30⟩)]⟩] :=
  ⟨rfl, rfl⟩

/-- C8 counterexample: for the function built from
`(fun f (:a int) (:b string))`, `num_arguments()` IS 1 — refuting the
claim's conjunct that `num_arguments() == 1` is false. -/
theorem claim8_counterexample : c8f.num_arguments = 1 := rfl

/-- C8 (amended): for the function built from `(fun f (:a int) (:b string))`,
`num_arguments() == 1` is TRUE — the function has 1 argument named `a` of
type int, its return-value map has exactly 1 entry named `b` of type
string, and the maps preserve the declaration order of the paired
(name, type) sequence (an order-preserving build for any duplicate-free
sequence). -/
theorem claim8_function_shape :
    c8f.num_arguments = 1 ∧
    c8f.arguments = [("a", ⟨"a", Sum.inl DataType.int, [], 1, 8⟩)] ∧
    c8f.return_values = [("b", ⟨"b", Sum.inl DataType.string, [], 1, 17⟩)] ∧
    (∀ (l : List (String × NamedTypeMixin)),
      (l.map Prod.fst).Nodup → dictOfPairs l = l) :=
  ⟨rfl, rfl, rfl, fun l h => dictOfPairs_of_nodup l h⟩

/-- C8 witness: the order-preservation conjunct applied to a concrete
duplicate-free pair list. -/
theorem claim8_witness : dictOfPairs [("a", c7bool)] = [("a", c7bool)] :=
  claim8_function_shape.2.2.2 [("a", c7bool)] (by decide)

/-- C9: each of the three name-keyed maps (records, functions, enums) of
any successfully built module is the duplicate-overwriting index of its
ordered member list; indexing two like-named entries keeps exactly the
later one, for any member kind (the lemma is generic in the value type);
and in the concrete modules with two records named `r`, two functions
named `f`, and two enums named `e`, both members remain in the member
list in declaration order while the corresponding map holds only the
later member. -/
theorem claim9_duplicate_shadowing :
    (∀ (name doc : String) (raws : List RawMember) (M : Module),
      Module.make name doc raws = Except.ok M →
      M.records = dictOfPairs (M.members.filterMap (fun mem =>
        match mem with
        | Member.record r => some (r.name, r)
        | _ => none)) ∧
      M.functions = dictOfPairs (M.members.filterMap (fun mem =>
        match mem with
        | Member.function f => some (f.name, f)
        | _ => none)) ∧
      M.enums = dictOfPairs (M.members.filterMap (fun mem =>
        match mem with
        | Member.enumeration e => some (e.name, e)
        | _ => none))) ∧
    (∀ {α : Type} (n : String) (v1 v2 : α),
      dictOfPairs [(n, v1), (n, v2)] = [(n, v2)]) ∧
    (c9m.members =
      [Member.record ⟨"r", "", [("p", ⟨"p", Sum.inl DataType.int, [], 1, 1⟩)]⟩,
       Member.record
         ⟨"r", "", [("q", ⟨"q", Sum.inl DataType.int, [], 2, 1⟩)]⟩] ∧
     c9m.records =
      [("r", ⟨"r", "", [("q", ⟨"q", Sum.inl DataType.int, [], 2, 1⟩)]⟩)]) ∧
    (c9fm.members =
      [Member.function ⟨"f", "", [], []⟩,
       Member.function
         ⟨"f", "", [("a", ⟨"a", Sum.inl DataType.int, [], 1, 1⟩)], []⟩] ∧
     c9fm.functions =
      [("f",
        ⟨"f", "", [("a", ⟨"a", Sum.inl DataType.int, [], 1, 1⟩)], []⟩)]) ∧
    (c9em.members =
      [Member.enumeration ⟨"e", "", ["a"]⟩,
       Member.enumeration ⟨"e", "", ["b"]⟩] ∧
     c9em.enums = [("e", ⟨"e", "", ["b"]⟩)]) := by
  refine ⟨?_, ?_, ⟨rfl, rfl⟩, ⟨rfl, rfl⟩, ⟨rfl, rfl⟩⟩
  · intro name doc raws M h
    unfold Module.make at h
    split at h
    · exact absurd h (by simp)
    · rw [Except.ok.injEq] at h
      subst h
      exact ⟨rfl, rfl, rfl⟩
  · intro α n v1 v2
    simp [dictOfPairs, dictInsert]

/-- C9 witness: the map-derivation conjunct applied to the `c9m` fixture,
giving all three map equalities. -/
theorem claim9_witness :
    c9m.records = dictOfPairs (c9m.members.filterMap (fun mem =>
      match mem with
      | Member.record r => some (r.name, r)
      | _ => none)) ∧
    c9m.functions = dictOfPairs (c9m.members.filterMap (fun mem =>
      match mem with
      | Member.function f => some (f.name, f)
      | _ => none)) ∧
    c9m.enums = dictOfPairs (c9m.members.filterMap (fun mem =>
      match mem with
      | Member.enumeration e => some (e.name, e)
      | _ => none)) :=
  claim9_duplicate_shadowing.1 "m9" "" c9raws c9m rfl

/-- C10: the planner's element-type override `list_types[DataType.STRING]
= "u8"` lands under the `DataType.STRING` enum-object key while the lookup
is by the string key `"string"`, which still maps to `abi_size_type =
"i64"`; hence a bare-string return value's AllocOp carries element type
`i64` (so the planned allocation is `size_of::<i64>()` times the string
length), not the 1-byte `u8`. -/
theorem claim10_string_alloc_item_type :
    dictGet? list_types (AbiKey.strKey "string") = some abi_size_type ∧
    abi_size_type = "i64" ∧
    dictGet? list_types (AbiKey.dtKey DataType.string) = some "u8" ∧
    function_writer c10m 9 c10f =
      Except.ok ([⟨"t_out_len", ".len()", "i64"⟩],
        [⟨⟨"t_out", "", "i64"⟩, ItemType.str "i64"⟩]) :=
  ⟨rfl, rfl, rfl, rfl⟩

/-- C2: a record-typed return-like value makes the planner recurse over
the record's own ordered fields with the flattening callbacks, the
per-value operation lists are spliced (appended) into the outer result in
declaration order, and for `(fun g () (:r R))` with
`(rec R (:n int :s string))` the flattened plan is exactly: one WriteOp
for `n` at the base `r_out` offset, then one AllocOp + length-WriteOp pair
for `s` at offset base + size_of the int wire type `i64`. -/
theorem claim2_record_recursion_splice :
    (∀ (recurse : List (String × NamedTypeMixin) → OpCallbacks →
        Except PlanError (List WriteOp × List AllocOp))
      (m : Module) (cb : OpCallbacks) (rv : NamedTypeMixin) (r : Record),
      rv.is_list = false → rv.as_record m = Except.ok (some r) →
      value_ops recurse m cb rv =
        recurse r.fields (field_callbacks m rv.name r.fields)) ∧
    (∀ (recurse : List (String × NamedTypeMixin) → OpCallbacks →
        Except PlanError (List WriteOp × List AllocOp))
      (m : Module) (cb : OpCallbacks) (n : String) (rv : NamedTypeMixin)
      (rest : List (String × NamedTypeMixin))
      (ws ws2 : List WriteOp) (als als2 : List AllocOp),
      value_ops recurse m cb rv = Except.ok (ws, als) →
      plan_values recurse m cb rest = Except.ok (ws2, als2) →
      plan_values recurse m cb ((n, rv) :: rest) =
        Except.ok (ws ++ ws2, als ++ als2)) ∧
    function_writer c2m 9 c2g =
      Except.ok ([⟨"r_out", "n", "i64"⟩,
        ⟨"r_out + std::mem::size_of::<i64>() + std::mem::size_of::<i64>()",
          "s.len()", "i64"⟩],
        [⟨⟨"r_out + std::mem::size_of::<i64>()", "s", "i64"⟩,
          ItemType.str "i64"⟩]) := by
  refine ⟨?_, ?_, rfl⟩
  · intro recurse m cb rv r hl hrec
    obtain ⟨s, hs, hms, hisrec⟩ := as_record_inv m rv r hrec
    have hdat : rv.as_datatype = none := by
      unfold NamedTypeMixin.as_datatype
      rw [hs]
    unfold value_ops
    rw [if_neg (by simp [hl, hdat]), if_pos hisrec, hrec]
  · intro recurse m cb n rv rest ws ws2 als als2 h1 h2
    unfold plan_values
    rw [h1, h2]

/-- C2 witness: the recursion conjunct applied to the return value `r` of
`c2m`'s function `g`. -/
theorem claim2_witness :
    value_ops (create_ops c2m 8) c2m anyCb c2rv =
      create_ops c2m 8 c2R.fields (field_callbacks c2m c2rv.name c2R.fields) :=
  claim2_record_recursion_splice.1 (create_ops c2m 8) c2m anyCb c2rv c2R
    rfl rfl

/-- C3: the AllocOp element type is the resolved record, else the resolved
enum, else the `list_types` entry for the value's type-name string; a
list or bare-string value contributes exactly one AllocOp (targeting
`target_fn`, i.e. the value's `_out` slot) and exactly one WriteOp
(targeting `target_len_fn`, i.e. the paired `_out_len` slot, sourced from
the element count `source_len_fn`); and a function returning a single
list-of-int plans exactly one AllocOp (element type = the int wire type
`i64`) plus one length WriteOp. -/
theorem claim3_list_string_alloc :
    (∀ (m : Module) (rv : NamedTypeMixin) (r : Record),
      rv.as_record m = Except.ok (some r) →
      item_type_of m rv = Except.ok (ItemType.record r)) ∧
    (∀ (m : Module) (rv : NamedTypeMixin) (e : Enumeration),
      rv.is_record m = false → rv.as_enum m = Except.ok (some e) →
      item_type_of m rv = Except.ok (ItemType.enumeration e)) ∧
    (∀ (m : Module) (rv : NamedTypeMixin) (t : String),
      rv.is_record m = false → rv.is_enum m = false →
      dictGet? list_types (AbiKey.strKey rv.type_name) = some t →
      item_type_of m rv = Except.ok (ItemType.str t)) ∧
    (∀ (recurse : List (String × NamedTypeMixin) → OpCallbacks →
        Except PlanError (List WriteOp × List AllocOp))
      (m : Module) (cb : OpCallbacks) (rv : NamedTypeMixin) (it : ItemType)
      (tgt tlen : String),
      (rv.is_list = true ∨ rv.as_datatype = some DataType.string) →
      item_type_of m rv = Except.ok it →
      cb.target_fn rv = Except.ok tgt →
      cb.target_len_fn rv = Except.ok tlen →
      value_ops recurse m cb rv =
        Except.ok ([⟨tlen, cb.source_len_fn rv, abi_size_type⟩],
          [⟨⟨tgt, cb.source_fn rv, abi_size_type⟩, it⟩])) ∧
    function_writer c3m 9 c3h =
      Except.ok ([⟨"xs_out_len", ".len()", "i64"⟩],
        [⟨⟨"xs_out", "", "i64"⟩, ItemType.str "i64"⟩]) := by
  refine ⟨?_, ?_, ?_, ?_, rfl⟩
  · intro m rv r hrec
    obtain ⟨s, hs, hms, hisrec⟩ := as_record_inv m rv r hrec
    unfold item_type_of
    rw [if_pos hisrec, hrec]
  · intro m rv e hrecF hen
    obtain ⟨s, hs, hme, hisenu⟩ := as_enum_inv m rv e hen
    unfold item_type_of
    rw [if_neg (by simp [hrecF]), if_pos hisenu, hen]
  · intro m rv t hrecF henF hlook
    unfold item_type_of
    rw [if_neg (by simp [hrecF]), if_neg (by simp [henF]), hlook]
  · intro recurse m cb rv it tgt tlen hcond hit htgt htlen
    unfold value_ops
    rw [if_pos hcond, hit, htgt, htlen]

/-- C3 witness: the per-value conjunct applied to the list-of-int return
value `xs` of `c3m`'s function `h`. -/
theorem claim3_witness :
    value_ops (create_ops c3m 8) c3m anyCb c3xs =
      Except.ok ([⟨"", anyCb.source_len_fn c3xs, abi_size_type⟩],
        [⟨⟨"", anyCb.source_fn c3xs, abi_size_type⟩, ItemType.str "i64"⟩]) :=
  claim3_list_string_alloc.2.2.2.1 (create_ops c3m 8) c3m anyCb c3xs
    (ItemType.str "i64") "" "" (Or.inl rfl) rfl rfl rfl

theorem size_term_spec (m : Module) (sib : NamedTypeMixin)
    (h : sib.is_enum m = true →
      dictGet? abi_types (AbiKey.strKey sib.type_name) = none)
    (t : String) (hok : size_term m sib = Except.ok t) :
    t = spec_size_term m sib := by
  unfold size_term at hok
  unfold spec_size_term
  by_cases h1 : sib.is_list = true ∨ sib.as_datatype = some DataType.string
  · rw [if_pos h1] at hok
    rw [if_pos h1]
    exact ((Except.ok.injEq _ _).mp hok).symm
  · rw [if_neg h1] at hok
    rw [if_neg h1]
    by_cases h2 : sib.is_record m = true
    · rw [if_pos h2] at hok
      rw [if_pos h2]
      exact ((Except.ok.injEq _ _).mp hok).symm
    · rw [if_neg h2] at hok
      rw [if_neg h2]
      cases hl : dictGet? abi_types (AbiKey.strKey sib.type_name) with
      | none =>
        rw [hl] at hok
        exact absurd hok (by simp)
      | some t0 =>
        rw [hl] at hok
        have henF : ¬ sib.is_enum m = true := by
          intro he
          rw [h he] at hl
          cases hl
        rw [if_neg henF, Option.getD_some]
        exact ((Except.ok.injEq _ _).mp hok).symm

theorem mapE_size_term_spec (m : Module) :
    ∀ (l : List (String × NamedTypeMixin)) (ts : List String),
      (∀ p ∈ l, p.2.is_enum m = true →
        dictGet? abi_types (AbiKey.strKey p.2.type_name) = none) →
      mapE (fun p => size_term m p.2) l = Except.ok ts →
      ts = l.map (fun p => spec_size_term m p.2)
  | [], ts, _, hok => by
    unfold mapE at hok
    simpa using ((Except.ok.injEq _ _).mp hok).symm
  | p :: rest, ts, h, hok => by
    unfold mapE at hok
    cases hst : size_term m p.2 with
    | error e =>
      rw [hst] at hok
      exact absurd hok (by simp)
    | ok t0 =>
      rw [hst] at hok
      cases hrest : mapE (fun q => size_term m q.2) rest with
      | error e =>
        rw [hrest] at hok
        exact absurd hok (by simp)
      | ok ts0 =>
        rw [hrest] at hok
        have hts : t0 :: ts0 = ts := (Except.ok.injEq _ _).mp hok
        have h0 : t0 = spec_size_term m p.2 :=
          size_term_spec m p.2 (h p (by simp)) t0 hst
        have hr : ts0 = rest.map (fun q => spec_size_term m q.2) :=
          mapE_size_term_spec m rest ts0
            (fun q hq => h q (by simp [hq])) hrest
        rw [← hts, List.map_cons, h0, hr]

/-- C1: whenever `field_target` (the target-offset expression the planner
emits for a field of a flattened record return value, wired in as the
flattening callbacks' `target_fn`) succeeds, the expression equals the
spec's formula `spec_field_offset`: the enclosing value's base `_out`
offset plus, per preceding sibling, two ABI-size-type widths for a
list/string, the upper-cased size constant for a record, and the fixed
scalar/enum wire width otherwise.  The first hypothesis — no enum shares
a name with an `abi_types` scalar entry — holds for every lexer-produced
module, since the scalar type names are reserved keywords there; an
enum-typed preceding sibling makes `field_target` raise `KeyError`
instead of succeeding, so it constrains nothing here.  The last conjunct:
the paired `_out_len` slot sits one ABI-size-type width further. -/
theorem claim1_flattened_field_offset :
    (∀ (m : Module) (a : String) (fields : List (String × NamedTypeMixin))
        (field : NamedTypeMixin) (t : String),
      (∀ p ∈ fields, p.2.is_enum m = true →
        dictGet? abi_types (AbiKey.strKey p.2.type_name) = none) →
      field_target m a fields field = Except.ok t →
      t = spec_field_offset m a fields field) ∧
    (∀ (m : Module) (a : String)
        (fields : List (String × NamedTypeMixin)),
      (field_callbacks m a fields).target_fn = field_target m a fields) ∧
    (∀ (m : Module) (a : String) (fields : List (String × NamedTypeMixin))
        (field : NamedTypeMixin) (t : String),
      field_target m a fields field = Except.ok t →
      field_target_len m a fields field =
        Except.ok (t ++ " + std::mem::size_of::<" ++ abi_size_type ++
          ">()")) := by
  refine ⟨?_, fun m a fields => rfl, ?_⟩
  · intro m a fields field t h hok
    unfold field_target at hok
    cases hmap : mapE (fun p => size_term m p.2)
        (fields.takeWhile (fun p => p.1 ≠ field.name)) with
    | error e =>
      rw [hmap] at hok
      exact absurd hok (by simp)
    | ok terms =>
      rw [hmap] at hok
      have hterms : terms =
          (fields.takeWhile (fun p => p.1 ≠ field.name)).map
            (fun p => spec_size_term m p.2) :=
        mapE_size_term_spec m _ terms
          (fun p hp => h p ((List.takeWhile_sublist _).subset hp)) hmap
      unfold spec_field_offset
      rw [← hterms]
      exact ((Except.ok.injEq _ _).mp hok).symm
  · intro m a fields field t hok
    unfold field_target_len
    rw [hok]

/-- C1 witness: the offset of field `s` in the flattened record `R` of
`c2m`, computed by `field_target` and matching the spec formula. -/
theorem claim1_witness :
    "r_out + std::mem::size_of::<i64>()" =
      spec_field_offset c2m "r" c2Rfields c2s :=
  claim1_flattened_field_offset.1 c2m "r" c2Rfields c2s
    "r_out + std::mem::size_of::<i64>()" (by decide) rfl

end Tisl
